import Mathlib

/-!
Verification development for the VibeTravel trip-planning frontend.

The definitions below are a shallow embedding of the JavaScript source:

* `src/frontend/src/pages/Dashboard.js` — the phased selection orchestrator
  (rating log, preferred-destination view, flight/hotel/activity phases,
  hotel-scenario resolution, final submit).
* `src/unnamed/part_000` — the `FlightModal` component (budget allocation,
  flight search dispatch, selection save).
* `src/frontend/src/api/searchFlights.js`, `saveFlightSelection.js` and the
  `searchLocations` client (`src/unnamed/part_002`) — remote-call wrappers.

JavaScript numbers are modelled as `ℚ` (exact field arithmetic of the values
actually used: integer ratings, dollar amounts, millisecond timestamps of
date-only inputs), nullable values as `Option`, and the relevant JS truthiness
idioms (`x || d`, `x ?? d`) as explicit helper functions.  Event handlers that
contain an `await` are split at the suspension point: the function models the
synchronous prefix and returns both the updated state and the request value
that is handed to the asynchronous call; the resumption (success and failure
continuations) are separate functions.
-/

namespace VibeTravel

/-- JS `s || d` for string-valued expressions: `none` (undefined) and the
empty string are falsy and fall through to the default. -/
def jsOrStr (v : Option String) (d : String) : String :=
  match v with
  | some s => if s = "" then d else s
  | none => d

/-- JS `s || d` keeping the fallback optional (for chained `a || b || c`). -/
def jsOrStrO (v : Option String) (d : Option String) : Option String :=
  match v with
  | some s => if s = "" then d else some s
  | none => d

/-- JS `x || d` for number-valued expressions: `none` (undefined) and `0` are
falsy and fall through to the default. -/
def jsOrQ (v : Option ℚ) (d : ℚ) : ℚ :=
  match v with
  | some x => if x = 0 then d else x
  | none => d

/-! ## Rating aggregator (Dashboard.js)

`handleRatingStored` appends the rating event to `allRatings`;
`preferredDestinations` is the derived view
`allRatings.filter(r => r.rating >= 5).sort((a, b) => b.rating - a.rating)`.
JavaScript `Array.prototype.sort` is required to be stable, and the comparator
`(a, b) => b.rating - a.rating` orders by descending rating, so the view is
the stable descending-by-rating sort of the filtered log.  We embed it with
`List.mergeSort`, which is the stable sort of the Lean core library. -/

/-- One entry of `allRatings`: the `ratingData` record built in
`DestinationRating.handleRatingClick` and passed to `onRatingStored`. -/
structure RatingEvent where
  destination : String
  country : String
  description : String
  recommended_activities : List String
  estimated_budget : String
  rating : ℚ
deriving Repr, DecidableEq

/-- The order used by the JS comparator `(a, b) => b.rating - a.rating`:
`a` may stay before `b` exactly when `b.rating ≤ a.rating`. -/
def ratingDescLE (a b : RatingEvent) : Bool := decide (b.rating ≤ a.rating)

/-- From `Dashboard.js` line 407: `allRatings.filter(r => r.rating >= 5).sort(...)`
— the derived preferred-destination view. -/
def preferredDestinations (allRatings : List RatingEvent) : List RatingEvent :=
  (allRatings.filter (fun r => decide (5 ≤ r.rating))).mergeSort ratingDescLE

/-- From `Dashboard.js` line 402: `handleRatingStored` appends to the log. -/
def handleRatingStored (allRatings : List RatingEvent) (r : RatingEvent) :
    List RatingEvent :=
  allRatings ++ [r]

/-! ## Phase-2 itinerary data (Dashboard.js)

Shapes of the `planItinerary` response consumed by the planning modal. -/

/-- One flight card of `itineraryData.flights.outbound_flights` /
`return_flights` (fields read in the flight step and in `handleSubmit`). -/
structure Flight where
  airline : String
  departure_airport_code : String
  arrival_airport_code : String
  departure_time : String
  arrival_time : String
  total_duration_minutes : ℚ
  stops : ℚ
  price_usd : ℚ
deriving Repr, DecidableEq

/-- One hotel card of a scenario list. -/
structure Hotel where
  name : String
  link : String
  rating : ℚ
  reviews : ℚ
  price : ℚ
  category : Option String
deriving Repr, DecidableEq

/-- Shape of `response.hotels.scenario_A` / `scenario_B`: a scenario object carrying a
`hotels` list. -/
structure HotelScenario where
  hotels : List Hotel
deriving Repr, DecidableEq

/-- Shape of `response.hotels`: the two precomputed pricing branches; either branch may
be missing (`scenario_A?.hotels || []` in the source). -/
structure HotelsResponse where
  scenario_A : Option HotelScenario
  scenario_B : Option HotelScenario
deriving Repr, DecidableEq

/-- One activity card of `itineraryData.activities.activities`. -/
structure Activity where
  name : String
  description : String
  category : String
  estimated_duration : String
  estimated_cost_per_person : ℚ
deriving Repr, DecidableEq

/-- Shape of `response.flights`: the two option lists. -/
structure FlightsResponse where
  outbound_flights : List Flight
  return_flights : List Flight
deriving Repr, DecidableEq

/-- Shape of `response.activities`. -/
structure ActivitiesResponse where
  activities : List Activity
deriving Repr, DecidableEq

/-- The Phase-2 `planItinerary` response stored in `itineraryData`. -/
structure ItineraryData where
  flights : FlightsResponse
  hotels : Option HotelsResponse
  activities : ActivitiesResponse
  errors : List String
deriving Repr, DecidableEq

/-- A Phase-3 `createItinerary` response, appended to `savedItineraries`
(only the fields the dashboard reads are modelled). -/
structure FinalItinerary where
  destination : String
  dates : String
  num_travelers : ℚ
  total_cost : ℚ
  created_at : String
deriving Repr, DecidableEq

/-! ## Dashboard phase orchestrator (Dashboard.js, second document)

The component state relevant to the phased selection flow, and a step
function over the event handlers that mutate it.  Handlers containing an
`await` are split: `destinationClickStart` / `submitStart` are the
synchronous prefixes executed before the asynchronous call is dispatched,
and `planSuccess` / `planFailure` / `submitSuccess` / `submitFailure` are
the continuations that run when the call resolves or rejects. -/

/-- Values of `currentStep`: flights, hotels, activities, generating. -/
inductive PlanStep where
  | flights
  | hotels
  | activities
  | generating
deriving Repr, DecidableEq

/-- The `useState` fields of `Dashboard` that the orchestrator touches. -/
structure DashboardState where
  activeTab : String
  allRatings : List RatingEvent
  showModal : Bool
  isGenerating : Bool
  selectedDestination : Option RatingEvent
  itineraryData : Option ItineraryData
  currentStep : PlanStep
  selectedOutboundFlight : Option ℕ
  selectedReturnFlight : Option ℕ
  selectedHotel : Option ℕ
  selectedActivities : List ℕ
  savedItineraries : List FinalItinerary
deriving Repr, DecidableEq

/-- The user / async events handled by the dashboard orchestrator. -/
inductive DashAction where
  | ratingStored (r : RatingEvent)
  | setTab (t : String)
  | destinationClickStart (d : RatingEvent)
  | planSuccess (response : ItineraryData)
  | planFailure
  | selectOutboundFlight (idx : ℕ)
  | selectReturnFlight (idx : ℕ)
  | selectHotel (idx : ℕ)
  | toggleActivity (idx : ℕ)
  | confirmFlights
  | confirmHotel
  | submitStart
  | submitSuccess (itinerary : FinalItinerary)
  | submitFailure
deriving Repr, DecidableEq

/-- Step function: each arm transcribes the corresponding handler in
`Dashboard.js` (lines 402–536). -/
def dashStep (a : DashAction) (s : DashboardState) : DashboardState :=
  match a with
  | .ratingStored r => { s with allRatings := handleRatingStored s.allRatings r }
  | .setTab t => { s with activeTab := t }
  | .destinationClickStart d =>
      { s with
        selectedDestination := some d
        showModal := true
        isGenerating := true
        itineraryData := none
        currentStep := .flights
        selectedOutboundFlight := none
        selectedReturnFlight := none
        selectedHotel := none
        selectedActivities := [] }
  | .planSuccess response =>
      { s with itineraryData := some response, isGenerating := false }
  | .planFailure =>
      { s with isGenerating := false, showModal := false }
  | .selectOutboundFlight idx => { s with selectedOutboundFlight := some idx }
  | .selectReturnFlight idx => { s with selectedReturnFlight := some idx }
  | .selectHotel idx => { s with selectedHotel := some idx }
  | .toggleActivity idx =>
      if idx ∈ s.selectedActivities then
        { s with selectedActivities := s.selectedActivities.filter (fun i => decide (i ≠ idx)) }
      else
        { s with selectedActivities := s.selectedActivities ++ [idx] }
  | .confirmFlights =>
      if s.selectedOutboundFlight ≠ none ∧ s.selectedReturnFlight ≠ none then
        { s with currentStep := .hotels }
      else s
  | .confirmHotel =>
      if s.selectedHotel ≠ none then { s with currentStep := .activities } else s
  | .submitStart =>
      { s with isGenerating := true, currentStep := .generating }
  | .submitSuccess itinerary =>
      { s with
        savedItineraries := s.savedItineraries ++ [itinerary]
        isGenerating := false
        showModal := false
        activeTab := "itineraries" }
  | .submitFailure =>
      { s with isGenerating := false, currentStep := .activities }

/-- From `Dashboard.js` lines 538–544: `getHotelsByScenario` resolves the active
hotel list from the loaded data and the selected outbound flight index. -/
def getHotelsByScenario (itineraryData : Option ItineraryData)
    (selectedOutboundFlight : Option ℕ) : List Hotel :=
  match itineraryData with
  | none => []
  | some d =>
      match d.hotels with
      | none => []
      | some h =>
          if selectedOutboundFlight = some 0 then
            match h.scenario_A with
            | some sc => sc.hotels
            | none => []
          else
            match h.scenario_B with
            | some sc => sc.hotels
            | none => []

/-- The hotel list the hotel step renders (`getHotelsByScenario().map(...)`,
line 847), as a function of the component state. -/
def dashHotelList (s : DashboardState) : List Hotel :=
  getHotelsByScenario s.itineraryData s.selectedOutboundFlight

/-! ## FlightModal (src/unnamed/part_000)

The round-trip flight selection modal: form defaults, budget allocation,
search dispatch, selection, and save. -/

/-- Nested leg detail of a dropdown flight option (`option.outbound`). -/
structure LegDetail where
  departureTime : Option String
  arrivalTime : Option String
  stops : Option ℚ
  departureAirport : Option String
  arrivalAirport : Option String
  routeDisplay : Option String
deriving Repr, DecidableEq

/-- One dropdown flight option (`dropdownFlights` entry); every field the
modal reads may be missing on the raw record. -/
structure DropFlight where
  id : String
  airline : Option String
  price : Option ℚ
  priceDisplay : Option String
  bookingUrl : Option String
  totalDuration : Option String
  outbound : Option LegDetail
  overBudget : Bool
deriving Repr, DecidableEq

/-- Metadata attached to one leg result (`metadata.note`, `metadata.warnings`). -/
structure LegMetadata where
  note : Option String
  warnings : List String
deriving Repr, DecidableEq

/-- The `budget` object of the search response
(`supervisorResult?.budget?...`). -/
structure BudgetInfo where
  budgetDivisor : Option ℚ
  budgetForFlightFinder : Option ℚ
deriving Repr, DecidableEq

/-- The flight-search response stored in `supervisorResult` (only the budget
part is read by the budget allocator). -/
structure SupervisorResult where
  budget : Option BudgetInfo
deriving Repr, DecidableEq

/-- The `formValues` state of the modal. -/
structure SearchValues where
  currentCity : String
  destinationCity : String
  travellers : ℚ
  totalBudget : ℚ
  outboundDate : String
  returnDate : String
deriving Repr, DecidableEq

/-- The `searchState` object of the modal. -/
structure SearchStateM where
  loading : Bool
  error : Option String
  outboundFlights : List DropFlight
  outboundCandidates : List DropFlight
  outboundMessage : Option String
  outboundMetadata : Option LegMetadata
  returnFlights : List DropFlight
  returnCandidates : List DropFlight
  returnMessage : Option String
  returnMetadata : Option LegMetadata
deriving Repr, DecidableEq

/-- The `initialStatus` constant (part_000 lines 9–20). -/
def initialStatus : SearchStateM :=
  { loading := false
    error := none
    outboundFlights := []
    outboundCandidates := []
    outboundMessage := none
    outboundMetadata := none
    returnFlights := []
    returnCandidates := []
    returnMessage := none
    returnMetadata := none }

/-- The `saveResult` state object. -/
structure SaveResult where
  success : Bool
  message : Option String
  downloadUrl : Option String
  file : Option String
deriving Repr, DecidableEq

/-- The `useState` / `useRef` fields of `FlightModal`. -/
structure ModalState where
  formValues : SearchValues
  searchState : SearchStateM
  supervisorResult : Option SupervisorResult
  selectedOutbound : Option DropFlight
  selectedReturn : Option DropFlight
  isSaving : Bool
  saveResult : Option SaveResult
  hasPreloaded : Bool
deriving Repr, DecidableEq

/-- The `tripDetails` prop (every field the modal reads, all optional). -/
structure TripDetails where
  currentCity : Option String
  location : Option String
  destinationCity : Option String
  travellers : Option ℚ
  travelers : Option ℚ
  numTravelers : Option ℚ
  totalBudget : Option ℚ
  budget : Option ℚ
  outboundDate : Option String
  startDate : Option String
  returnDate : Option String
  endDate : Option String
deriving Repr, DecidableEq

/-- The `destination` prop (`destination?.destination || destination?.city`). -/
structure DestinationProp where
  destination : Option String
  city : Option String
deriving Repr, DecidableEq

/-- JS `String.prototype.trim`: strip leading and trailing whitespace
(written over the character list so that it evaluates by kernel reduction). -/
def jsTrim (s : String) : String :=
  String.mk
    (((s.data.dropWhile Char.isWhitespace).reverse.dropWhile
      Char.isWhitespace).reverse)

/-- The `coerceCity` helper (part_000 lines 22–27): falsy becomes the empty string,
anything else is trimmed. -/
def coerceCity (value : String) : String :=
  if value = "" then "" else jsTrim value

/-- The budget allocator: `budgetForFlightFinder` useMemo (part_000 lines
49–59).  The divisor is `supervisorResult?.budget?.budgetDivisor || 2`; a
falsy or non-positive total budget yields `0`; a truthy
`supervisorResult?.budget?.budgetForFlightFinder` is returned directly;
otherwise the result is `totalBudget / divisor`. -/
def budgetForFlightFinder (totalBudget : ℚ)
    (supervisorResult : Option SupervisorResult) : ℚ :=
  let divisor := jsOrQ ((supervisorResult.bind SupervisorResult.budget).bind
    BudgetInfo.budgetDivisor) 2
  if totalBudget = 0 ∨ totalBudget ≤ 0 then 0
  else
    match (supervisorResult.bind SupervisorResult.budget).bind
        BudgetInfo.budgetForFlightFinder with
    | some b => if b = 0 then totalBudget / divisor else b
    | none => totalBudget / divisor

/-- Synchronous prefix of `loadFlights` (part_000 lines 70–79): the state
written before `await searchFlights(values)` is dispatched, paired with the
request values handed to the call. -/
def loadFlightsSync (values : SearchValues) (m : ModalState) :
    ModalState × SearchValues :=
  ({ m with
      searchState := { initialStatus with loading := true }
      selectedOutbound := none
      selectedReturn := none
      saveResult := none }, values)

/-- The `defaults` object computed by the open effect (part_000 lines
133–140). -/
def modalDefaults (tripDetails : TripDetails) (destination : DestinationProp)
    (today : String) : SearchValues :=
  let travellersFromPhase1 := jsOrQ tripDetails.travellers
    (jsOrQ tripDetails.travelers (jsOrQ tripDetails.numTravelers 1))
  let totalBudgetFromPhase1 := jsOrQ tripDetails.totalBudget
    (jsOrQ tripDetails.budget 0)
  { currentCity := coerceCity (jsOrStr tripDetails.currentCity
      (jsOrStr tripDetails.location ""))
    destinationCity := coerceCity (jsOrStr destination.destination
      (jsOrStr destination.city (jsOrStr tripDetails.destinationCity "")))
    travellers := if 0 < travellersFromPhase1 then travellersFromPhase1 else 1
    totalBudget := if 0 < totalBudgetFromPhase1 then totalBudgetFromPhase1 else 0
    outboundDate := jsOrStr tripDetails.outboundDate
      (jsOrStr tripDetails.startDate today)
    returnDate := jsOrStr tripDetails.returnDate
      (jsOrStr tripDetails.endDate "") }

/-- The open branch of the modal effect (part_000 lines 126–156, `isOpen`
true): set the form defaults, then either preload the search (returning the
dispatched request) or surface the validation error without issuing a call. -/
def openFlightModal (tripDetails : TripDetails) (destination : DestinationProp)
    (today : String) (m : ModalState) : ModalState × Option SearchValues :=
  let defaults := modalDefaults tripDetails destination today
  let m1 := { m with formValues := defaults }
  if defaults.currentCity ≠ "" ∧ defaults.destinationCity ≠ "" ∧
      0 < defaults.totalBudget then
    if m.hasPreloaded then (m1, none)
    else
      let r := loadFlightsSync defaults { m1 with hasPreloaded := true }
      (r.1, some r.2)
  else
    ({ m1 with searchState :=
        { initialStatus with
          error := some "Please provide cities and a positive total budget." } },
      none)

/-- The `handleSubmit` handler of the search form (part_000 lines 165–168): always calls
`loadFlights(formValues)`; returns the state after the synchronous prefix and
the dispatched request values. -/
def submitSearchForm (m : ModalState) : ModalState × SearchValues :=
  loadFlightsSync m.formValues m

/-- Synchronous prefix of `handleSaveSelection` (part_000 lines 178–192): the
guard plus the writes before `await saveFlightSelection(payload)`; the `Bool`
records whether the save call is dispatched. -/
def handleSaveSelectionStart (m : ModalState) : ModalState × Bool :=
  if m.selectedOutbound = none ∨ m.selectedReturn = none then
    ({ m with saveResult := some (SaveResult.mk false
        (some "Select an outbound and a return flight before saving.")
        none none) }, false)
  else
    ({ m with isSaving := true, saveResult := none }, true)

/-- Failure continuation of `handleSaveSelection` (part_000 lines 267–274):
the `catch` block plus the `finally` block. -/
def handleSaveSelectionFailure (errorMessage : Option String) (m : ModalState) :
    ModalState :=
  { m with
    saveResult := some (SaveResult.mk false
      (some (jsOrStr errorMessage "Failed to save selection.")) none none)
    isSaving := false }

/-- The per-leg summary record built by `handleSaveSelection` (part_000 lines
195–220); the same construction is used for the outbound and the return leg
(`const inbound = selectedReturn.outbound || {}`). -/
structure FlightSummary where
  airline : Option String
  departure_time : String
  arrival_time : String
  duration : String
  price : Option ℚ
  booking_url : Option String
  stops : ℚ
  departure_airport : String
  arrival_airport : String
deriving Repr, DecidableEq

/-- The empty object `{}` used when the nested leg detail is missing. -/
def emptyLegDetail : LegDetail :=
  { departureTime := none
    arrivalTime := none
    stops := none
    departureAirport := none
    arrivalAirport := none
    routeDisplay := none }

/-- Builds `flightSummary` / `returnSummary` from a selected flight (part_000
lines 195–220): `departureTime || "Unknown"`, `arrivalTime || "Unknown"`,
`totalDuration || "Unknown"`, `stops ?? 0`, `departureAirport || ""`,
`arrivalAirport || ""`; airline, price and booking reference are copied
as-is. -/
def mkFlightSummary (sel : DropFlight) : FlightSummary :=
  let ob := sel.outbound.getD emptyLegDetail
  { airline := sel.airline
    departure_time := jsOrStr ob.departureTime "Unknown"
    arrival_time := jsOrStr ob.arrivalTime "Unknown"
    duration := jsOrStr sel.totalDuration "Unknown"
    price := sel.price
    booking_url := sel.bookingUrl
    stops := ob.stops.getD 0
    departure_airport := jsOrStr ob.departureAirport ""
    arrival_airport := jsOrStr ob.arrivalAirport "" }

/-! ## Remote-call wrappers (src/frontend/src/api, src/unnamed/part_002)

Each wrapper receives the transport response (`ok` flag, numeric status code,
parsed JSON body) and either returns the body or throws; a thrown error is
modelled as `Except.error` carrying the message. -/

/-- The parsed JSON body fields the wrappers inspect. -/
structure RespBody where
  status : Option String
  error : Option String
  detail : Option String
deriving Repr, DecidableEq

/-- A transport response: `response.ok`, `response.status`, and the parsed
body. -/
structure HttpResponse where
  ok : Bool
  statusCode : ℕ
  body : RespBody
deriving Repr, DecidableEq

/-- The `searchFlights` wrapper (searchFlights.js lines 10–17): fails when `!response.ok`
or `data.status !== "success"`, with message `data?.error || "Request failed
with status N"`. -/
def searchFlights (response : HttpResponse) : Except String RespBody :=
  if !response.ok ∨ response.body.status ≠ some "success" then
    .error (jsOrStr response.body.error
      ("Request failed with status " ++ toString response.statusCode))
  else
    .ok response.body

/-- The `saveFlightSelection` wrapper (saveFlightSelection.js lines 10–17): same failure
condition, with message `data?.detail || data?.error || "Request failed with
status N"`. -/
def saveFlightSelection (response : HttpResponse) : Except String RespBody :=
  if !response.ok ∨ response.body.status ≠ some "success" then
    .error (jsOrStr response.body.detail (jsOrStr response.body.error
      ("Request failed with status " ++ toString response.statusCode)))
  else
    .ok response.body

/-- The `searchLocations` wrapper (src/unnamed/part_002 lines 4–14): returns
`response.json()` with no inspection of the transport status or the body. -/
def searchLocations (response : HttpResponse) : Except String RespBody :=
  .ok response.body

/-! ## Day-count computation (Dashboard.js lines 441 and 508)

Both payload builders compute
`Math.max((new Date(endDate) - new Date(startDate)) / (1000*60*60*24) - 2, 0)`.
Date subtraction yields the difference in milliseconds; the `yyyy-mm-dd`
values from the date inputs parse to UTC midnight, so each date is a whole
number of days times `86400000` ms. -/

/-- The `numDays` field of the Phase-2 `trip_context` payload (line 441), over
millisecond timestamps. -/
def planPayloadNumDays (startDateMs endDateMs : ℚ) : ℚ :=
  max ((endDateMs - startDateMs) / (1000 * 60 * 60 * 24) - 2) 0

/-- The `num_days` field of the Phase-3 payload (line 508), over millisecond
timestamps. -/
def createPayloadNumDays (startDateMs endDateMs : ℚ) : ℚ :=
  max ((endDateMs - startDateMs) / (1000 * 60 * 60 * 24) - 2) 0

/-! ## Sample values used by witnesses -/

/-- A minimal dashboard state: planning just entered, nothing selected. -/
def emptyDash : DashboardState :=
  { activeTab := "suggestions"
    allRatings := []
    showModal := false
    isGenerating := false
    selectedDestination := none
    itineraryData := none
    currentStep := .flights
    selectedOutboundFlight := none
    selectedReturnFlight := none
    selectedHotel := none
    selectedActivities := []
    savedItineraries := [] }

/-- A sample hotel offer for scenario A. -/
def sampleHotelA : Hotel :=
  { name := "Hotel Alpha", link := "l1", rating := 4.5, reviews := 120
    price := 90, category := some "Cheapest" }

/-- A sample hotel offer for scenario B. -/
def sampleHotelB : Hotel :=
  { name := "Hotel Beta", link := "l2", rating := 4.8, reviews := 300
    price := 210, category := some "Luxury" }

/-- A sample loaded Phase-2 response with both hotel scenarios present. -/
def sampleItineraryData : ItineraryData :=
  { flights := { outbound_flights := [], return_flights := [] }
    hotels := some { scenario_A := some { hotels := [sampleHotelA] }
                     scenario_B := some { hotels := [sampleHotelB] } }
    activities := { activities := [] }
    errors := [] }

/-! ## Claims -/

/-- Claim C1: with hotel data loaded, an outbound selection at list index 0
resolves the active hotel list to scenario A, any other index resolves it to
scenario B, and the resolved list is exactly what the hotel phase renders
(`dashHotelList`). -/
theorem getHotelsByScenario_index_resolution (s : DashboardState)
    (d : ItineraryData) (h : HotelsResponse)
    (hd : s.itineraryData = some d) (hh : d.hotels = some h) :
    (s.selectedOutboundFlight = some 0 →
      dashHotelList s = (h.scenario_A.map HotelScenario.hotels).getD []) ∧
    (∀ i : ℕ, s.selectedOutboundFlight = some i → i ≠ 0 →
      dashHotelList s = (h.scenario_B.map HotelScenario.hotels).getD []) := by
  constructor
  · intro h0
    simp only [dashHotelList, getHotelsByScenario, hd, hh, h0, if_pos]
    cases hA : h.scenario_A <;> simp [hA]
  · intro i hi hne
    simp only [dashHotelList, getHotelsByScenario, hd, hh, hi]
    rw [if_neg (by simpa using hne)]
    cases hB : h.scenario_B <;> simp [hB]

/-- Witness for C1: a concrete loaded state where outbound index 0 yields the
scenario-A list and outbound index 3 yields the scenario-B list. -/
theorem getHotelsByScenario_index_resolution_witness :
    dashHotelList { emptyDash with
      itineraryData := some sampleItineraryData
      selectedOutboundFlight := some 0 } = [sampleHotelA] ∧
    dashHotelList { emptyDash with
      itineraryData := some sampleItineraryData
      selectedOutboundFlight := some 3 } = [sampleHotelB] := by
  constructor
  · exact ((getHotelsByScenario_index_resolution _ sampleItineraryData _ rfl
      rfl).1 rfl).trans rfl
  · exact ((getHotelsByScenario_index_resolution _ sampleItineraryData _ rfl
      rfl).2 3 rfl (by decide)).trans rfl

/-- Claim C3: no dashboard action moves a state whose phase is not
`hotels` into the `hotels` phase unless both flight selections are non-null,
and the confirm action with a missing selection leaves the state unchanged. -/
theorem confirmFlights_guard (a : DashAction) (s : DashboardState) :
    (s.currentStep ≠ PlanStep.hotels →
      (dashStep a s).currentStep = PlanStep.hotels →
      s.selectedOutboundFlight ≠ none ∧ s.selectedReturnFlight ≠ none) ∧
    ((s.selectedOutboundFlight = none ∨ s.selectedReturnFlight = none) →
      dashStep DashAction.confirmFlights s = s) := by
  constructor
  · intro hne hstep
    cases a
    case ratingStored r => exact absurd hstep hne
    case setTab t => exact absurd hstep hne
    case destinationClickStart d => exact PlanStep.noConfusion hstep
    case planSuccess r => exact absurd hstep hne
    case planFailure => exact absurd hstep hne
    case selectOutboundFlight i => exact absurd hstep hne
    case selectReturnFlight i => exact absurd hstep hne
    case selectHotel i => exact absurd hstep hne
    case toggleActivity i =>
      simp only [dashStep] at hstep
      split at hstep <;> exact absurd hstep hne
    case confirmFlights =>
      simp only [dashStep] at hstep
      split at hstep
      · next hsel => exact hsel
      · exact absurd hstep hne
    case confirmHotel =>
      simp only [dashStep] at hstep
      split at hstep
      · exact PlanStep.noConfusion hstep
      · exact absurd hstep hne
    case submitStart => exact PlanStep.noConfusion hstep
    case submitSuccess it => exact absurd hstep hne
    case submitFailure => exact PlanStep.noConfusion hstep
  · intro hmiss
    simp only [dashStep]
    rw [if_neg]
    rintro ⟨h1, h2⟩
    rcases hmiss with hm | hm
    · exact h1 hm
    · exact h2 hm

/-- Witness for C3: in the initial planning state (no selections), the
confirm-flights action leaves the state unchanged, and in a state with both
selections made, reaching the hotel phase certifies both are non-null. -/
theorem confirmFlights_guard_witness :
    dashStep DashAction.confirmFlights emptyDash = emptyDash ∧
    ({ emptyDash with
        selectedOutboundFlight := some 0
        selectedReturnFlight := some 1 }.selectedOutboundFlight ≠ none ∧
     { emptyDash with
        selectedOutboundFlight := some 0
        selectedReturnFlight := some 1 }.selectedReturnFlight ≠ none) := by
  constructor
  · exact (confirmFlights_guard DashAction.confirmFlights emptyDash).2
      (Or.inl rfl)
  · exact (confirmFlights_guard DashAction.confirmFlights
      { emptyDash with
        selectedOutboundFlight := some 0
        selectedReturnFlight := some 1 }).1 (by decide) (by decide)

/-- Claim C4: starting a new itinerary planning (dashboard) or a new flight
search (modal) clears every prior selection in the synchronous prefix, i.e.
in the state that exists when the asynchronous call is dispatched. -/
theorem research_clears_selection_state (d : RatingEvent) (s : DashboardState)
    (v : SearchValues) (m : ModalState) :
    ((dashStep (DashAction.destinationClickStart d) s).selectedOutboundFlight
        = none ∧
     (dashStep (DashAction.destinationClickStart d) s).selectedReturnFlight
        = none ∧
     (dashStep (DashAction.destinationClickStart d) s).selectedHotel = none ∧
     (dashStep (DashAction.destinationClickStart d) s).selectedActivities
        = [] ∧
     (dashStep (DashAction.destinationClickStart d) s).itineraryData = none) ∧
    ((loadFlightsSync v m).1.selectedOutbound = none ∧
     (loadFlightsSync v m).1.selectedReturn = none ∧
     (loadFlightsSync v m).1.saveResult = none ∧
     (loadFlightsSync v m).1.searchState = { initialStatus with loading := true }) :=
  ⟨⟨rfl, rfl, rfl, rfl, rfl⟩, rfl, rfl, rfl, rfl⟩

/-- Claim C5: a persistence failure (Phase-3 itinerary creation in the
dashboard, flight-selection save in the modal) leaves the Selection exactly
as it was immediately before the submit was started. -/
theorem persistence_failure_preserves_selection (s : DashboardState)
    (m : ModalState) (errorMessage : Option String) :
    ((dashStep DashAction.submitFailure
        (dashStep DashAction.submitStart s)).selectedOutboundFlight
          = s.selectedOutboundFlight ∧
     (dashStep DashAction.submitFailure
        (dashStep DashAction.submitStart s)).selectedReturnFlight
          = s.selectedReturnFlight ∧
     (dashStep DashAction.submitFailure
        (dashStep DashAction.submitStart s)).selectedHotel = s.selectedHotel ∧
     (dashStep DashAction.submitFailure
        (dashStep DashAction.submitStart s)).selectedActivities
          = s.selectedActivities ∧
     (dashStep DashAction.submitFailure
        (dashStep DashAction.submitStart s)).itineraryData
          = s.itineraryData) ∧
    ((handleSaveSelectionFailure errorMessage
        (handleSaveSelectionStart m).1).selectedOutbound
          = m.selectedOutbound ∧
     (handleSaveSelectionFailure errorMessage
        (handleSaveSelectionStart m).1).selectedReturn = m.selectedReturn) := by
  refine ⟨⟨rfl, rfl, rfl, rfl, rfl⟩, ?_, ?_⟩ <;>
    · unfold handleSaveSelectionStart handleSaveSelectionFailure
      split <;> rfl

/-- Claim C10: for trip dates given as whole epoch days (which is what the
`yyyy-mm-dd` date inputs parse to), both the Phase-2 and the Phase-3 payload
day counts equal the whole-day difference of end and start minus 2, floored
at 0 — not the raw range length. -/
theorem numDays_whole_day_difference (s e : ℤ) :
    planPayloadNumDays (86400000 * s) (86400000 * e)
        = max ((e : ℚ) - (s : ℚ) - 2) 0 ∧
    createPayloadNumDays (86400000 * s) (86400000 * e)
        = max ((e : ℚ) - (s : ℚ) - 2) 0 := by
  have hdiv : ((86400000 : ℚ) * e - 86400000 * s) / (1000 * 60 * 60 * 24)
      = (e : ℚ) - (s : ℚ) := by
    rw [div_eq_iff (by norm_num)]
    ring
  unfold planPayloadNumDays createPayloadNumDays
  rw [hdiv]
  exact ⟨rfl, rfl⟩

/-- Counterexample for C2: with total budget 2000 and no divisor override, the
claim says the sub-budget is 2000 / 2 = 1000; but when the search response
carries a precomputed `budgetForFlightFinder` of 500, the code returns 500. -/
theorem budgetForFlightFinder_override_counterexample :
    budgetForFlightFinder 2000
        (some { budget := some { budgetDivisor := none
                                 budgetForFlightFinder := some 500 } }) = 500 ∧
    (2000 : ℚ) / 2 = 1000 ∧ (500 : ℚ) ≠ 1000 := by
  refine ⟨?_, by norm_num, by norm_num⟩
  simp [budgetForFlightFinder, jsOrQ]

/-- Claim C2 (amended): the sub-budget is 0 when the total budget B is not
positive; when B is positive it equals the precomputed flight budget carried
by the search response whenever that value is present and non-zero, and
B divided by the divisor (response-provided, default 2, zero treated as
unset) otherwise. -/
theorem budgetForFlightFinder_characterization (B : ℚ)
    (sr : Option SupervisorResult) :
    (B ≤ 0 → budgetForFlightFinder B sr = 0) ∧
    (0 < B → ∀ x, (sr.bind SupervisorResult.budget).bind
        BudgetInfo.budgetForFlightFinder = some x → x ≠ 0 →
      budgetForFlightFinder B sr = x) ∧
    (0 < B → (∀ x, (sr.bind SupervisorResult.budget).bind
        BudgetInfo.budgetForFlightFinder = some x → x = 0) →
      budgetForFlightFinder B sr =
        B / jsOrQ ((sr.bind SupervisorResult.budget).bind
          BudgetInfo.budgetDivisor) 2) := by
  unfold budgetForFlightFinder
  refine ⟨fun hB => ?_, fun hB x hx hne => ?_, fun hB hall => ?_⟩
  · rw [if_pos (Or.inr hB)]
  · rw [if_neg (by push_neg; constructor <;> linarith), hx]
    simp [hne]
  · rw [if_neg (by push_neg; constructor <;> linarith)]
    cases hcase : (sr.bind SupervisorResult.budget).bind
        BudgetInfo.budgetForFlightFinder with
    | none => rfl
    | some x => simp [hall x hcase]

/-- Witness for C2: the characterization evaluated at a non-positive budget,
at a positive budget with a non-zero response override, and at a positive
budget with no override. -/
theorem budgetForFlightFinder_characterization_witness :
    budgetForFlightFinder (-5) none = 0 ∧
    budgetForFlightFinder 2000
        (some { budget := some { budgetDivisor := none
                                 budgetForFlightFinder := some 500 } }) = 500 ∧
    budgetForFlightFinder 100 none = 100 / 2 := by
  refine ⟨?_, ?_, ?_⟩
  · exact (budgetForFlightFinder_characterization (-5) none).1 (by norm_num)
  · exact (budgetForFlightFinder_characterization 2000 _).2.1 (by norm_num)
      500 rfl (by norm_num)
  · exact (budgetForFlightFinder_characterization 100 none).2.2 (by norm_num)
      (fun x hx => by cases hx)

/-- A location-search transport failure: HTTP 500, empty body. -/
def failedLocationResponse : HttpResponse :=
  { ok := false, statusCode := 500
    body := { status := none, error := none, detail := none } }

/-- Counterexample for C7: the `searchLocations` remote call returns the
parsed body as a success even when the transport status is a failure, so the
stated error convention does not hold for every remote-collaborator call. -/
theorem searchLocations_transport_failure_counterexample :
    failedLocationResponse.ok = false ∧
    searchLocations failedLocationResponse
      = Except.ok failedLocationResponse.body :=
  ⟨rfl, rfl⟩

/-- Claim C7 (amended): the flight-search and flight-selection-save calls
follow the stated convention — non-success transport status or a body status
other than "success" yields a failure whose message comes from the body
error/detail field with a generic status-derived fallback, and anything else
is returned as success — while the location-search call returns the parsed
body unconditionally. -/
theorem remote_call_error_convention (r : HttpResponse) :
    ((r.ok = false ∨ r.body.status ≠ some "success") →
      searchFlights r = Except.error (jsOrStr r.body.error
        ("Request failed with status " ++ toString r.statusCode))) ∧
    ((r.ok = false ∨ r.body.status ≠ some "success") →
      saveFlightSelection r = Except.error (jsOrStr r.body.detail
        (jsOrStr r.body.error
          ("Request failed with status " ++ toString r.statusCode)))) ∧
    (r.ok = true → r.body.status = some "success" →
      searchFlights r = Except.ok r.body ∧
      saveFlightSelection r = Except.ok r.body) ∧
    (r.body.error = none → r.body.detail = none →
      (r.ok = false ∨ r.body.status ≠ some "success") →
      searchFlights r = Except.error
        ("Request failed with status " ++ toString r.statusCode) ∧
      saveFlightSelection r = Except.error
        ("Request failed with status " ++ toString r.statusCode)) ∧
    (searchLocations r = Except.ok r.body) := by
  have hcond : ∀ hr : r.ok = false ∨ r.body.status ≠ some "success",
      ((!r.ok) = true ∨ r.body.status ≠ some "success") := by
    intro hr
    rcases hr with hr | hr
    · exact Or.inl (by simp [hr])
    · exact Or.inr hr
  refine ⟨fun hr => ?_, fun hr => ?_, fun hok hst => ?_, fun he hd hr => ?_, rfl⟩
  · unfold searchFlights
    rw [if_pos (hcond hr)]
  · unfold saveFlightSelection
    rw [if_pos (hcond hr)]
  · have hneg : ¬((!r.ok) = true ∨ r.body.status ≠ some "success") := by
      rw [hok, hst]
      simp
    unfold searchFlights saveFlightSelection
    rw [if_neg hneg, if_neg hneg]
    exact ⟨rfl, rfl⟩
  · unfold searchFlights saveFlightSelection
    rw [if_pos (hcond hr), if_pos (hcond hr), he, hd]
    exact ⟨rfl, rfl⟩

/-- Witness for C7: the convention evaluated on a concrete transport failure
with an empty body (generic message) and on a concrete success response. -/
theorem remote_call_error_convention_witness :
    searchFlights { ok := false, statusCode := 503
                    body := { status := none, error := none, detail := none } }
      = Except.error ("Request failed with status " ++ toString (503 : ℕ)) ∧
    searchFlights { ok := true, statusCode := 200
                    body := { status := some "success", error := none
                              detail := none } }
      = Except.ok { status := some "success", error := none, detail := none } := by
  constructor
  · exact ((remote_call_error_convention _).2.2.2.1 rfl rfl (Or.inl rfl)).1
  · exact ((remote_call_error_convention _).2.2.1 rfl rfl).1

/-- A dropdown flight option with every optional field missing. -/
def bareDropFlight : DropFlight :=
  { id := "flight-1", airline := none, price := none, priceDisplay := none
    bookingUrl := none, totalDuration := none, outbound := none
    overBudget := false }

/-- Counterexample for C8: for a chosen flight with all optional fields
missing, the persisted summary maps the departure airport to the empty
string (not "Unknown"), the stop count to 0, and leaves airline and booking
reference absent — contradicting the claim that every missing optional field
is defaulted to the "Unknown" sentinel. -/
theorem flightSummary_defaults_counterexample :
    (mkFlightSummary bareDropFlight).departure_airport = "" ∧
    (mkFlightSummary bareDropFlight).departure_airport ≠ "Unknown" ∧
    (mkFlightSummary bareDropFlight).stops = 0 ∧
    (mkFlightSummary bareDropFlight).airline = none ∧
    (mkFlightSummary bareDropFlight).booking_url = none :=
  ⟨rfl, by decide, rfl, rfl, rfl⟩

/-- Claim C8 (amended): in the persisted per-leg summary, missing or empty
departure/arrival times and duration default to "Unknown"; a missing stop
count defaults to 0; missing or empty departure/arrival airports default to
the empty string; airline, price and booking reference are copied through
unchanged (absent stays absent). -/
theorem flightSummary_defaults_characterization (sel : DropFlight) :
    (((sel.outbound.getD emptyLegDetail).departureTime = none ∨
      (sel.outbound.getD emptyLegDetail).departureTime = some "") →
      (mkFlightSummary sel).departure_time = "Unknown") ∧
    (((sel.outbound.getD emptyLegDetail).arrivalTime = none ∨
      (sel.outbound.getD emptyLegDetail).arrivalTime = some "") →
      (mkFlightSummary sel).arrival_time = "Unknown") ∧
    ((sel.totalDuration = none ∨ sel.totalDuration = some "") →
      (mkFlightSummary sel).duration = "Unknown") ∧
    ((sel.outbound.getD emptyLegDetail).stops = none →
      (mkFlightSummary sel).stops = 0) ∧
    (((sel.outbound.getD emptyLegDetail).departureAirport = none ∨
      (sel.outbound.getD emptyLegDetail).departureAirport = some "") →
      (mkFlightSummary sel).departure_airport = "") ∧
    (((sel.outbound.getD emptyLegDetail).arrivalAirport = none ∨
      (sel.outbound.getD emptyLegDetail).arrivalAirport = some "") →
      (mkFlightSummary sel).arrival_airport = "") ∧
    (mkFlightSummary sel).airline = sel.airline ∧
    (mkFlightSummary sel).price = sel.price ∧
    (mkFlightSummary sel).booking_url = sel.bookingUrl := by
  have hstr : ∀ (v : Option String) (d : String),
      (v = none ∨ v = some "") → jsOrStr v d = d := by
    rintro v d (hv | hv) <;> simp [jsOrStr, hv]
  refine ⟨fun hv => ?_, fun hv => ?_, fun hv => ?_, fun hv => ?_,
    fun hv => ?_, fun hv => ?_, rfl, rfl, rfl⟩ <;>
    simp only [mkFlightSummary]
  · exact hstr _ _ hv
  · exact hstr _ _ hv
  · exact hstr _ _ hv
  · rw [hv]; rfl
  · exact hstr _ _ hv
  · exact hstr _ _ hv

/-- Witness for C8: the characterization evaluated on the all-optional-
fields-missing flight. -/
theorem flightSummary_defaults_characterization_witness :
    (mkFlightSummary bareDropFlight).departure_time = "Unknown" ∧
    (mkFlightSummary bareDropFlight).arrival_airport = "" := by
  constructor
  · exact (flightSummary_defaults_characterization bareDropFlight).1
      (Or.inl rfl)
  · exact (flightSummary_defaults_characterization
      bareDropFlight).2.2.2.2.2.1 (Or.inl rfl)

/-- The modal state before the open effect has run. -/
def initialModalState : ModalState :=
  { formValues := { currentCity := "", destinationCity := "", travellers := 1
                    totalBudget := 0, outboundDate := "2026-01-01"
                    returnDate := "" }
    searchState := initialStatus
    supervisorResult := none
    selectedOutbound := none
    selectedReturn := none
    isSaving := false
    saveResult := none
    hasPreloaded := false }

/-- Trip details with an origin and a budget but no destination anywhere. -/
def tripDetailsNoDestination : TripDetails :=
  { currentCity := some "New York", location := none, destinationCity := none
    travellers := some 2, travelers := none, numTravelers := none
    totalBudget := some 3000, budget := none
    outboundDate := some "2026-03-01", startDate := none
    returnDate := none, endDate := none }

/-- Fully valid trip details. -/
def tripDetailsValid : TripDetails :=
  { tripDetailsNoDestination with destinationCity := some "Tokyo" }

/-- A destination prop carrying no city fields. -/
def emptyDestinationProp : DestinationProp :=
  { destination := none, city := none }

/-- Counterexample for C9: opening the modal with an empty destination city
surfaces the validation error and dispatches no preload search — but the
search-form submit action then dispatches a flight search whose destination
city is empty, so a search call is issued after all, refuting the claim that
no search is ever issued and that a search is dispatched only with non-empty
cities. -/
theorem flight_search_validation_counterexample :
    (openFlightModal tripDetailsNoDestination emptyDestinationProp
      "2026-01-01" initialModalState).2 = none ∧
    (openFlightModal tripDetailsNoDestination emptyDestinationProp
      "2026-01-01" initialModalState).1.searchState.error
        = some "Please provide cities and a positive total budget." ∧
    (submitSearchForm (openFlightModal tripDetailsNoDestination
      emptyDestinationProp "2026-01-01" initialModalState).1).2.destinationCity
        = "" ∧
    (submitSearchForm (openFlightModal tripDetailsNoDestination
      emptyDestinationProp "2026-01-01" initialModalState).1).2.currentCity
        = "New York" := by
  decide

/-- Claim C9 (amended): the open effect itself obeys the claim — with an
empty origin city, empty destination city, or non-positive total budget it
surfaces the validation error and dispatches no search, and any search it
does dispatch carries non-empty cities and a positive budget; the manual
search-form submit, however, dispatches unconditionally with the current
form values. -/
theorem openFlightModal_validation (td : TripDetails) (dp : DestinationProp)
    (today : String) (m : ModalState) :
    (((modalDefaults td dp today).currentCity = "" ∨
      (modalDefaults td dp today).destinationCity = "" ∨
      (modalDefaults td dp today).totalBudget ≤ 0) →
      (openFlightModal td dp today m).2 = none ∧
      (openFlightModal td dp today m).1.searchState.error
        = some "Please provide cities and a positive total budget.") ∧
    (∀ v, (openFlightModal td dp today m).2 = some v →
      v.currentCity ≠ "" ∧ v.destinationCity ≠ "" ∧ 0 < v.totalBudget) := by
  constructor
  · intro hbad
    have hneg : ¬((modalDefaults td dp today).currentCity ≠ "" ∧
        (modalDefaults td dp today).destinationCity ≠ "" ∧
        0 < (modalDefaults td dp today).totalBudget) := by
      rintro ⟨h1, h2, h3⟩
      rcases hbad with hb | hb | hb
      · exact h1 hb
      · exact h2 hb
      · exact absurd h3 (not_lt.mpr hb)
    unfold openFlightModal
    rw [if_neg hneg]
    exact ⟨rfl, rfl⟩
  · intro v hv
    unfold openFlightModal at hv
    by_cases hcond : (modalDefaults td dp today).currentCity ≠ "" ∧
        (modalDefaults td dp today).destinationCity ≠ "" ∧
        0 < (modalDefaults td dp today).totalBudget
    · rw [if_pos hcond] at hv
      by_cases hpre : m.hasPreloaded
      · rw [if_pos hpre] at hv
        cases hv
      · rw [if_neg hpre] at hv
        have hveq : v = modalDefaults td dp today := by
          simpa [loadFlightsSync] using hv.symm
        rw [hveq]
        exact hcond
    · rw [if_neg hcond] at hv
      cases hv

/-- Witness for C9: the amended claim evaluated at the invalid open (no
dispatch, error surfaced) and at a valid open (the dispatched request has a
non-empty destination city). -/
theorem openFlightModal_validation_witness :
    (openFlightModal tripDetailsNoDestination emptyDestinationProp
      "2026-01-01" initialModalState).1.searchState.error
        = some "Please provide cities and a positive total budget." ∧
    (modalDefaults tripDetailsValid emptyDestinationProp
      "2026-01-01").destinationCity ≠ "" := by
  constructor
  · exact ((openFlightModal_validation tripDetailsNoDestination
      emptyDestinationProp "2026-01-01" initialModalState).1
      (Or.inr (Or.inl rfl))).2
  · exact ((openFlightModal_validation tripDetailsValid emptyDestinationProp
      "2026-01-01" initialModalState).2
      (modalDefaults tripDetailsValid emptyDestinationProp "2026-01-01")
      (by decide)).2.1

/-- The comparator order is transitive. -/
theorem ratingDescLE_trans (a b c : RatingEvent) :
    ratingDescLE a b → ratingDescLE b c → ratingDescLE a c := by
  simp only [ratingDescLE, decide_eq_true_eq]
  exact fun hab hbc => le_trans hbc hab

/-- The comparator order is total. -/
theorem ratingDescLE_total (a b : RatingEvent) :
    ratingDescLE a b || ratingDescLE b a := by
  simp only [ratingDescLE, Bool.or_eq_true, decide_eq_true_eq]
  exact le_total b.rating a.rating

/-- Claim C6: the preferred-destination view consists exactly of the logged
events with score ≥ 5 (as a permutation of the filtered log), is ordered by
descending score, and keeps events of equal score in their original
recording order (filtering the view to any fixed score gives the same list
as filtering the log). -/
theorem preferredDestinations_spec (l : List RatingEvent) :
    List.Perm (preferredDestinations l)
      (l.filter (fun r => decide (5 ≤ r.rating))) ∧
    (preferredDestinations l).Pairwise (fun a b => b.rating ≤ a.rating) ∧
    ∀ q : ℚ, (preferredDestinations l).filter (fun r => decide (r.rating = q))
      = (l.filter (fun r => decide (5 ≤ r.rating))).filter
          (fun r => decide (r.rating = q)) := by
  refine ⟨List.mergeSort_perm _ _, ?_, ?_⟩
  · have h := List.sorted_mergeSort ratingDescLE_trans
      ratingDescLE_total (l.filter (fun r => decide (5 ≤ r.rating)))
    exact h.imp (by
      intro a b hab
      simpa [ratingDescLE] using hab)
  · intro q
    have hcall : ∀ x ∈ (l.filter (fun r => decide (5 ≤ r.rating))).filter
        (fun r => decide (r.rating = q)), x.rating = q := by
      intro x hx
      have := List.of_mem_filter hx
      simpa using this
    have hpair : ((l.filter (fun r => decide (5 ≤ r.rating))).filter
        (fun r => decide (r.rating = q))).Pairwise
          (fun a b => ratingDescLE a b = true) := by
      apply List.pairwise_of_forall_mem_list
      intro a ha b hb
      simp [ratingDescLE, hcall a ha, hcall b hb]
    have hmsub : List.Sublist ((l.filter (fun r => decide (5 ≤ r.rating))).filter
        (fun r => decide (r.rating = q))) (preferredDestinations l) :=
      List.sublist_mergeSort ratingDescLE_trans ratingDescLE_total hpair
        (List.filter_sublist _)
    have hcf : ((l.filter (fun r => decide (5 ≤ r.rating))).filter
        (fun r => decide (r.rating = q))).filter
          (fun r => decide (r.rating = q))
        = (l.filter (fun r => decide (5 ≤ r.rating))).filter
            (fun r => decide (r.rating = q)) :=
      List.filter_eq_self.mpr (by
        intro a ha
        simpa using hcall a ha)
    have hsubf : List.Sublist ((l.filter (fun r => decide (5 ≤ r.rating))).filter
        (fun r => decide (r.rating = q)))
          ((preferredDestinations l).filter (fun r => decide (r.rating = q))) := by
      have := hmsub.filter (fun r => decide (r.rating = q))
      rwa [hcf] at this
    have hpf : List.Perm
        ((preferredDestinations l).filter (fun r => decide (r.rating = q)))
        ((l.filter (fun r => decide (5 ≤ r.rating))).filter
            (fun r => decide (r.rating = q))) :=
      (List.mergeSort_perm _ _).filter _
    exact (hsubf.eq_of_length hpf.length_eq.symm).symm

end VibeTravel
